import Mathlib

/-!
Shallow embedding of the browser music playground (mk-1.js and
mk-dwell/js/audio.js): the step sequencer grid and clock, the looper
event log, the MK1 automation facade, the effects-graph builder, the
dwell-mode spatial mapping, and the synth voice triggering.
Times, frequencies and gain values are modelled as rationals.
-/

namespace Playground

/-- A primitive sound trigger: one drum hit or one synth note. -/
inductive Trigger where
  | drum (sound : String)
  | synthNote (freq : Rat)
deriving DecidableEq, Repr

/-- `drumMap` / `drums` from mk-1.js: the fixed order of the 8 drum tracks/pads. -/
def drumMap : List String := ["kick", "snare", "hihat", "clap", "tom1", "perc", "cymbal", "rim"]

/-- The sequencer grid: 8 tracks (in `drumMap` order) of 16 booleans. -/
abbrev Grid := List (List Bool)

/-- The all-false grid, as built by `Array(16).fill(false)` for each drum. -/
def emptyGrid : Grid := List.replicate 8 (List.replicate 16 false)

/-- `MAX_HISTORY` from mk-1.js. -/
def MAX_HISTORY : Nat := 50

/-- Sequencer-side mutable state of mk-1.js: `sequencerSteps`, `currentStep`,
`isPlaying`, the interval of the running `setInterval` clock, and the
undo/redo history (`sequencerHistory`, `sequencerHistoryIndex`). -/
structure SeqState where
  steps : Grid
  currentStep : Nat
  isPlaying : Bool
  intervalMs : Rat
  history : List Grid
  historyIndex : Int
deriving DecidableEq, Repr

/-- `saveSequencerState` from mk-1.js: truncate any redo tail, push a deep copy
of the current grid, then either shift the oldest entry (when over
`MAX_HISTORY`) or advance the index. -/
def saveSequencerState (st : SeqState) : SeqState :=
  let hist :=
    if st.historyIndex < (st.history.length : Int) - 1 then
      st.history.take (st.historyIndex + 1).toNat
    else st.history
  let hist' := hist ++ [st.steps]
  if hist'.length > MAX_HISTORY then
    { st with history := hist'.drop 1 }
  else
    { st with history := hist', historyIndex := st.historyIndex + 1 }

/-- `restoreSequencerState` from mk-1.js: overwrite every track of the grid
with the stored snapshot. -/
def restoreSequencerState (st : SeqState) (g : Grid) : SeqState :=
  { st with steps := g }

/-- `undoSequencer` from mk-1.js. -/
def undoSequencer (st : SeqState) : SeqState :=
  if st.historyIndex > 0 then
    let i := st.historyIndex - 1
    restoreSequencerState { st with historyIndex := i } (st.history.getD i.toNat [])
  else st

/-- `redoSequencer` from mk-1.js. -/
def redoSequencer (st : SeqState) : SeqState :=
  if st.historyIndex < (st.history.length : Int) - 1 then
    let i := st.historyIndex + 1
    restoreSequencerState { st with historyIndex := i } (st.history.getD i.toNat [])
  else st

/-- Write one cell of the grid (`sequencerSteps[drum][i] = b`). -/
def setCell (g : Grid) (t i : Nat) (b : Bool) : Grid :=
  g.set t ((g.getD t []).set i b)

/-- The per-step click handler of mk-1.js: `saveSequencerState()` then toggle
the cell. -/
def toggleStepCell (st : SeqState) (t i : Nat) : SeqState :=
  let st' := saveSequencerState st
  { st' with steps := setCell st'.steps t i (!(st'.steps.getD t []).getD i false) }

/-- The `clearSeq` button handler: every track becomes `Array(16).fill(false)`. -/
def clearSeq (st : SeqState) : SeqState :=
  { st with steps := emptyGrid }

/-- The demo grid loaded by the `loadDemoBtn` handler: four-on-the-floor kick,
snare and clap on steps 4 and 12, hihat on every even step. -/
def loadDemoGrid : Grid :=
  let g := emptyGrid
  let g := setCell g 0 0 true
  let g := setCell g 0 4 true
  let g := setCell g 0 8 true
  let g := setCell g 0 12 true
  let g := setCell g 1 4 true
  let g := setCell g 1 12 true
  let g := (List.range 8).foldl (fun acc k => setCell acc 2 (2 * k) true) g
  let g := setCell g 3 4 true
  let g := setCell g 3 12 true
  g

/-- The sequencer-grid effect of the `loadDemoBtn` handler. -/
def loadDemo (st : SeqState) : SeqState :=
  { st with steps := loadDemoGrid }

/-- The sequencer-side effect of `stopSequencer` in mk-1.js: clear the
interval, `isPlaying = false`, `currentStep = 0`. -/
def stopSequencerSeq (st : SeqState) : SeqState :=
  { st with isPlaying := false, currentStep := 0 }

/-- The sequencer-grid effect of the `clearAllBtn` handler: clear the grid,
then stop the sequencer if it is playing. -/
def clearAllBtnSeq (st : SeqState) : SeqState :=
  let st' := { st with steps := emptyGrid }
  if st'.isPlaying then stopSequencerSeq st' else st'

/-- The clock interval of `toggleSequencer`: `(60 / tempo) * 1000 / 4`
milliseconds, four steps per beat. -/
def sequencerIntervalMs (tempo : Rat) : Rat := 60 / tempo * 1000 / 4

/-- One tick of the `setInterval` callback in `toggleSequencer`: fire
`playDrum(drum)` for every track whose boolean at `currentStep` is set, then
advance `currentStep = (currentStep + 1) % 16`.  Returns the new state and
the indices of the tracks whose drum trigger fired. -/
def sequencerTick (st : SeqState) : SeqState × List Nat :=
  let fired := (List.range 8).filter (fun t => (st.steps.getD t []).getD st.currentStep false)
  ({ st with currentStep := (st.currentStep + 1) % 16 }, fired)

/-! ## Looper -/

/-- Looper slot names A-D. -/
inductive Slot where
  | A | B | C | D
deriving DecidableEq, Repr

/-- A timestamped trigger descriptor pushed onto `loopSlots[slot].loop`:
either `{type:'drum', sound, time}` or `{type:'synth', freq, wave, time}`. -/
inductive LoopEvent where
  | drum (sound : String) (time : Rat)
  | synth (freq : Rat) (wave : String) (time : Rat)
deriving DecidableEq, Repr

/-- One entry of `loopSlots`: the event log, whether a decoded audio buffer is
present, its duration, and the `isPlaying` flag. -/
structure SlotData where
  loop : List LoopEvent
  hasAudio : Bool
  duration : Rat
  isPlaying : Bool
deriving DecidableEq, Repr

/-- A freshly cleared slot. -/
def emptySlot : SlotData := ⟨[], false, 0, false⟩

/-- Looper-side mutable state of mk-1.js: the four slots, `activeSlot`,
`isRecording`, `isOverdub`, `recordingStart`. -/
structure LooperState where
  slotA : SlotData
  slotB : SlotData
  slotC : SlotData
  slotD : SlotData
  activeSlot : Slot
  isRecording : Bool
  isOverdub : Bool
  recordingStart : Rat
deriving DecidableEq, Repr

/-- Read a slot of `loopSlots`. -/
def getSlot (st : LooperState) : Slot → SlotData
  | .A => st.slotA
  | .B => st.slotB
  | .C => st.slotC
  | .D => st.slotD

/-- Write a slot of `loopSlots`. -/
def setSlot (st : LooperState) (s : Slot) (d : SlotData) : LooperState :=
  match s with
  | .A => { st with slotA := d }
  | .B => { st with slotB := d }
  | .C => { st with slotC := d }
  | .D => { st with slotD := d }

/-- `playDrum(type, skipRecording)` from mk-1.js, restricted to its trigger and
event-log effect: it always fires the drum trigger, and when not skipped and
recording or overdub is active it pushes a timestamped descriptor with
`time = audioContext.currentTime - recordingStart` onto the active slot. -/
def playDrum (st : LooperState) (type : String) (skipRecording : Bool) (now : Rat) :
    Trigger × LooperState :=
  (Trigger.drum type,
    if !skipRecording && (st.isRecording || st.isOverdub) then
      let d := getSlot st st.activeSlot
      setSlot st st.activeSlot
        { d with loop := d.loop ++ [LoopEvent.drum type (now - st.recordingStart)] }
    else st)

/-- `playNote(freq, skipRecording)` from mk-1.js, restricted to its trigger and
event-log effect (the synthesized one-shot voice is modelled by
`playNoteVoice` below). -/
def playNote (st : LooperState) (freq : Rat) (wave : String) (skipRecording : Bool) (now : Rat) :
    Trigger × LooperState :=
  (Trigger.synthNote freq,
    if !skipRecording && (st.isRecording || st.isOverdub) then
      let d := getSlot st st.activeSlot
      setSlot st st.activeSlot
        { d with loop := d.loop ++ [LoopEvent.synth freq wave (now - st.recordingStart)] }
    else st)

/-- The recorded time offset of a logged event. -/
def eventTime : LoopEvent → Rat
  | .drum _ t => t
  | .synth _ _ t => t

/-- The trigger a logged event re-fires on replay: `playDrum(event.sound, true)`
or `playNote(event.freq, true)`. -/
def eventTrigger : LoopEvent → Trigger
  | .drum s _ => .drum s
  | .synth f _ _ => .synthNote f

/-- Re-firing one logged event, as the `playLoopBtn` handler's `setTimeout`
callback does: `playDrum(event.sound, true)` or `playNote(event.freq, true)`. -/
def replayEventRun (st : LooperState) (now : Rat) : LoopEvent → Trigger × LooperState
  | .drum s t => playDrum st s true (now + t)
  | .synth f w t => playNote st f w true (now + t)

/-- One step of replaying a slot's event log: re-fire the event at its
recorded time offset (the JS schedules it with
`setTimeout(..., event.time * 1000)`) and thread the looper state. -/
def playLoopStep (now : Rat) (acc : List (Rat × Trigger) × LooperState) (e : LoopEvent) :
    List (Rat × Trigger) × LooperState :=
  let r := replayEventRun acc.2 now e
  (acc.1 ++ [(eventTime e, r.1)], r.2)

/-- Replaying a slot (`playLoopBtn` / `MK1.looper.play`): fold the replay of
each logged event over the looper state, collecting the scheduled triggers
with their time offsets. -/
def playLoopRun (st : LooperState) (s : Slot) (now : Rat) :
    List (Rat × Trigger) × LooperState :=
  (getSlot st s).loop.foldl (playLoopStep now) ([], st)

/-! ## Transport: toggleSequencer / stopSequencer -/

/-- `stopSequencer(shouldStopRecording)` from mk-1.js: stop the clock, reset
the step pointer, and (when asked and recording) stop the recording. -/
def stopSequencer (shouldStopRecording : Bool) : SeqState × LooperState → SeqState × LooperState
  | (sq, lp) =>
    ({ sq with isPlaying := false, currentStep := 0 },
     if shouldStopRecording && lp.isRecording then { lp with isRecording := false } else lp)

/-- `toggleSequencer(skipRecording)` from mk-1.js: when stopped, start the
fixed-interval clock at `(60 / tempo) * 1000 / 4` ms and (unless skipped or
already recording/overdubbing) auto-start recording into the active slot;
when playing, delegate to `stopSequencer()`. -/
def toggleSequencer (skipRecording : Bool) (tempo now : Rat) :
    SeqState × LooperState → SeqState × LooperState
  | (sq, lp) =>
    if !sq.isPlaying then
      ({ sq with isPlaying := true, intervalMs := sequencerIntervalMs tempo },
       if !skipRecording && !lp.isRecording && !lp.isOverdub then
         let lp' := { lp with isRecording := true, recordingStart := now }
         setSlot lp' lp'.activeSlot { getSlot lp' lp'.activeSlot with loop := [] }
       else lp)
    else stopSequencer true (sq, lp)

/-! ## MK1 automation facade -/

/-- `isValidPad` from the MK1 facade: `Number.isInteger(pad) && 1 <= pad <= 8`.
JS numbers are modelled as rationals; integrality is `den = 1`. -/
def isValidPad (pad : Rat) : Bool :=
  pad.den == 1 && decide (1 ≤ pad) && decide (pad ≤ 8)

/-- `isValidTrack` from the MK1 facade. -/
def isValidTrack (track : Rat) : Bool :=
  track.den == 1 && decide (1 ≤ track) && decide (track ≤ 8)

/-- `isValidStep` from the MK1 facade: integer in 1..16. -/
def isValidStep (step : Rat) : Bool :=
  step.den == 1 && decide (1 ≤ step) && decide (step ≤ 16)

/-- The zero-based array index `n - 1` used by the facade for a validated
1-based rational argument. -/
def ratIndex (q : Rat) : Nat := q.num.toNat - 1

/-- `MK1.drums.hit(pad)`: validate, then fire `playDrum(drumMap[pad-1], true)`.
Returns the fired trigger, or `none` for an invalid pad (early return). -/
def MK1_drums_hit (pad : Rat) : Option Trigger :=
  if isValidPad pad then some (.drum (drumMap.getD (ratIndex pad) "")) else none

/-- `noteFrequencies` from the MK1 facade (C2-C7). -/
def noteFrequencies : List (String × Rat) :=
  [("C2", 6541/100), ("C#2", 6930/100), ("D2", 7342/100), ("D#2", 7778/100),
   ("E2", 8241/100), ("F2", 8731/100), ("F#2", 9250/100), ("G2", 9800/100),
   ("G#2", 10383/100), ("A2", 11000/100), ("A#2", 11654/100), ("B2", 12347/100),
   ("C3", 13081/100), ("C#3", 13859/100), ("D3", 14683/100), ("D#3", 15556/100),
   ("E3", 16481/100), ("F3", 17461/100), ("F#3", 18500/100), ("G3", 19600/100),
   ("G#3", 20765/100), ("A3", 22000/100), ("A#3", 23308/100), ("B3", 24694/100),
   ("C4", 26163/100), ("C#4", 27718/100), ("D4", 29366/100), ("D#4", 31113/100),
   ("E4", 32963/100), ("F4", 34923/100), ("F#4", 36999/100), ("G4", 39200/100),
   ("G#4", 41530/100), ("A4", 44000/100), ("A#4", 46616/100), ("B4", 49388/100),
   ("C5", 52325/100), ("C#5", 55437/100), ("D5", 58733/100), ("D#5", 62225/100),
   ("E5", 65925/100), ("F5", 69846/100), ("F#5", 73999/100), ("G5", 78399/100),
   ("G#5", 83061/100), ("A5", 88000/100), ("A#5", 93233/100), ("B5", 98777/100),
   ("C6", 104650/100), ("C#6", 110873/100), ("D6", 117466/100), ("D#6", 124451/100),
   ("E6", 131851/100), ("F6", 139691/100), ("F#6", 147998/100), ("G6", 156798/100),
   ("G#6", 166122/100), ("A6", 176000/100), ("A#6", 186466/100), ("B6", 197553/100),
   ("C7", 209300/100)]

/-- `MK1.synth.play(note, duration)`: look up the note's frequency (early
return on a miss), compute the effective release `max(50, durationMs)`, and
fire `playNote(freq, true)`.  Returns the fired trigger with the effective
release in ms, or `none` for an unknown note. -/
def MK1_synth_play (releaseTime : Rat) (note : String) (duration : Option Rat) :
    Option (Trigger × Rat) :=
  match noteFrequencies.lookup note with
  | none => none
  | some freq =>
    let durationMs := match duration with
      | some d => d * 1000
      | none => releaseTime
    some (Trigger.synthNote freq, max 50 durationMs)

/-- `MK1.sequencer.setStep(track, step, active)`. -/
def MK1_sequencer_setStep (st : SeqState) (track step : Rat) (active : Bool) : SeqState :=
  if isValidTrack track && isValidStep step then
    { st with steps := setCell st.steps (ratIndex track) (ratIndex step) active }
  else st

/-- `MK1.sequencer.getStep(track, step)`. -/
def MK1_sequencer_getStep (st : SeqState) (track step : Rat) : Bool :=
  if isValidTrack track && isValidStep step then
    (st.steps.getD (ratIndex track) []).getD (ratIndex step) false
  else false

/-- `MK1.sequencer.clearTrack(track)`. -/
def MK1_sequencer_clearTrack (st : SeqState) (track : Rat) : SeqState :=
  if isValidTrack track then
    { st with steps := st.steps.set (ratIndex track) (List.replicate 16 false) }
  else st

/-- `MK1.sequencer.clearAll()`. -/
def MK1_sequencer_clearAll (st : SeqState) : SeqState :=
  { st with steps := emptyGrid }

/-- `MK1.sequencer.start()`: when stopped, `toggleSequencer(true)`. -/
def MK1_sequencer_start (tempo now : Rat) (st : SeqState × LooperState) :
    SeqState × LooperState :=
  if !st.1.isPlaying then toggleSequencer true tempo now st else st

/-- `MK1.sequencer.stop()`: when playing, `stopSequencer()`. -/
def MK1_sequencer_stop (st : SeqState × LooperState) : SeqState × LooperState :=
  if st.1.isPlaying then stopSequencer true st else st

/-- `slot.toUpperCase()`, modelled on the string's character list. -/
def toUpperChars (s : String) : List Char := s.data.map Char.toUpper

/-- `MK1.looper._normalizeSlot`: uppercase the name and accept only A-D. -/
def normalizeSlot (slot : String) : Option Slot :=
  match toUpperChars slot with
  | ['A'] => some .A
  | ['B'] => some .B
  | ['C'] => some .C
  | ['D'] => some .D
  | _ => none

/-- `MK1.looper.record(slot)`: switch to the slot, start recording, clear the
slot's event log. -/
def MK1_looper_record (st : LooperState) (slot : String) (now : Rat) : LooperState :=
  match normalizeSlot slot with
  | none => st
  | some s =>
    let st' := { st with
      activeSlot := s
      isRecording := true
      isOverdub := false
      recordingStart := now }
    setSlot st' s { getSlot st' s with loop := [] }

/-- `MK1.looper.play(slot)`: replay the slot's audio buffer and event log.
Returns the new state and the scheduled triggers. -/
def MK1_looper_play (st : LooperState) (slot : String) (now : Rat) :
    LooperState × List (Rat × Trigger) :=
  match normalizeSlot slot with
  | none => (st, [])
  | some s =>
    let st1 := if (getSlot st s).hasAudio then
        setSlot st s { getSlot st s with isPlaying := true }
      else st
    if (getSlot st1 s).loop.length > 0 then
      let r := playLoopRun (setSlot st1 s { getSlot st1 s with isPlaying := true }) s now
      (r.2, r.1)
    else (st1, [])

/-- `MK1.looper.stop(slot)`: mark the slot as not playing. -/
def MK1_looper_stop (st : LooperState) (slot : String) : LooperState :=
  match normalizeSlot slot with
  | none => st
  | some s => setSlot st s { getSlot st s with isPlaying := false }

/-- `MK1.looper.isPlaying(slot)`. -/
def MK1_looper_isPlaying (st : LooperState) (slot : String) : Bool :=
  match normalizeSlot slot with
  | none => false
  | some s => (getSlot st s).isPlaying

/-- `MK1.looper.addLayer(slot)`: switch to the slot and start an overdub when
neither recording nor overdubbing. -/
def MK1_looper_addLayer (st : LooperState) (slot : String) (now : Rat) : LooperState :=
  match normalizeSlot slot with
  | none => st
  | some s =>
    let st' := { st with activeSlot := s }
    if !st'.isOverdub && !st'.isRecording then
      { st' with isOverdub := true, recordingStart := now }
    else st'

/-- `MK1.looper.clear(slot)`. -/
def MK1_looper_clear (st : LooperState) (slot : String) : LooperState :=
  match normalizeSlot slot with
  | none => st
  | some s => setSlot st s emptySlot

/-- The record returned by `MK1.looper.getSlotStatus`. -/
structure SlotStatus where
  hasContent : Bool
  isPlaying : Bool
  duration : Rat
  events : Nat
  hasAudio : Bool
deriving DecidableEq, Repr

/-- `MK1.looper.getSlotStatus(slot)`: `null` for an invalid slot name. -/
def MK1_looper_getSlotStatus (st : LooperState) (slot : String) : Option SlotStatus :=
  match normalizeSlot slot with
  | none => none
  | some s =>
    let d := getSlot st s
    some ⟨decide (d.loop.length > 0) || d.hasAudio, d.isPlaying, d.duration,
          d.loop.length, d.hasAudio⟩

/-! ## Effects signal graph (initSystem) -/

/-- The fixed effects topology built by the first call to `initSystem`: the
initial values of the mix controls and node parameters, and the directed
connections between the named nodes. -/
structure EffectsGraph where
  masterGainValue : Rat
  delayTimeValue : Rat
  delayFeedbackGain : Rat
  delayMixGain : Rat
  reverbMixGain : Rat
  filterKind : String
  filterFreq : Rat
  filterQ : Rat
  distortionMixGain : Rat
  bitcrusherMixGain : Rat
  chorusDelayTime : Rat
  chorusLFOFreq : Rat
  chorusLFODepth : Rat
  chorusMixGain : Rat
  connections : List (String × String)
deriving DecidableEq, Repr

/-- The graph `initSystem` builds in its `!audioContext` branch (mk-1.js
lines 603-774): master volume 0.7, delay 0.3s with feedback 0.3, a lowpass
filter at 10000 Hz with Q 1, all wet-mix gains starting at 0, the chorus as a
30 ms delay modulated by a 1.5 Hz LFO of depth 0.002, and the fixed set of
`connect` edges. -/
def buildGraph : EffectsGraph where
  masterGainValue := 7/10
  delayTimeValue := 3/10
  delayFeedbackGain := 3/10
  delayMixGain := 0
  reverbMixGain := 0
  filterKind := "lowpass"
  filterFreq := 10000
  filterQ := 1
  distortionMixGain := 0
  bitcrusherMixGain := 0
  chorusDelayTime := 3/100
  chorusLFOFreq := 3/2
  chorusLFODepth := 1/500
  chorusMixGain := 0
  connections :=
    [("delayNode", "delayFeedback"), ("delayFeedback", "delayNode"),
     ("delayNode", "delayMix"),
     ("reverbNode", "reverbMix"),
     ("masterGain", "delayNode"), ("masterGain", "reverbNode"),
     ("masterGain", "filterNode"),
     ("delayMix", "filterNode"), ("reverbMix", "filterNode"),
     ("filterNode", "analyser"), ("analyser", "destination"),
     ("masterGain", "distortionNode"), ("distortionNode", "distortionMix"),
     ("distortionMix", "filterNode"),
     ("masterGain", "bitcrusherNode"), ("bitcrusherNode", "bitcrusherMix"),
     ("bitcrusherMix", "filterNode"),
     ("chorusLFO", "chorusLFOGain"), ("chorusLFOGain", "chorusDelay.delayTime"),
     ("masterGain", "chorusDelay"), ("chorusDelay", "chorusMix"),
     ("chorusMix", "filterNode"),
     ("analyser", "mediaStreamDestination")]

/-- The state `initSystem` acts on: whether the audio context and node graph
exist, whether the context is suspended, and the `isActive` flag. -/
structure AudioState where
  graph : Option EffectsGraph
  suspended : Bool
  isActive : Bool
deriving DecidableEq, Repr

/-- `initSystem` from mk-1.js: on the first call (no `audioContext`) build the
fixed node graph, become active and resume; on any later call only resume a
suspended context. -/
def initSystem (st : AudioState) : AudioState :=
  match st.graph with
  | none => { graph := some buildGraph, suspended := false, isActive := true }
  | some _ =>
    if st.suspended then { st with suspended := false, isActive := true } else st

/-! ## Dwell generative mode (mk-dwell/js/audio.js) -/

/-- One `smoothParam(param, value, time)` call: a `setTargetAtTime` towards
`target` with time constant `timeConstant` (seconds), never a jump. -/
structure ParamUpdate where
  param : String
  target : Rat
  timeConstant : Rat
deriving DecidableEq, Repr

/-- `DwellAudio.setPosition(x, y)`: clamp both coordinates into [0, 1]. -/
def dwellSetPosition (x y : Rat) : Rat × Rat :=
  (max 0 (min 1 x), max 0 (min 1 y))

/-- The parameter updates issued by one pass of `updateSpatial` for cursor
position `(x, y)`: pan from x, and filter cutoff, reverb gain, delay gain and
delay feedback from the depth `y`, each through `smoothParam`. -/
def updateSpatial (x y : Rat) : List ParamUpdate :=
  let pan := (x - 1/2) * 2
  let depth := y
  let filterFreq := 200 + (1 - depth) * 15800
  let reverbAmount := 1/10 + depth * (8/10)
  let delayAmount := depth * (7/10)
  [⟨"pannerNode.pan", pan, 1/50⟩,
   ⟨"filterNode.frequency", filterFreq, 3/100⟩,
   ⟨"reverbGain.gain", reverbAmount, 1/20⟩,
   ⟨"delayGain.gain", delayAmount, 1/20⟩,
   ⟨"delayFeedback.gain", depth * (3/5), 1/20⟩]

/-! ## Synth voices (the one-shot sub-graph built by playNote) -/

/-- One synth voice created by a `playNote` call: its envelope gain node ramps
up from `startTime` and the sources are stopped at `stopTime = startTime +
release`. -/
structure Voice where
  freq : Rat
  startTime : Rat
  stopTime : Rat
deriving DecidableEq, Repr

/-- The set of synth voices that exist in the audio context. -/
structure SynthState where
  voices : List Voice
deriving DecidableEq, Repr

/-- The voice-creation effect of `playNote(freq)`: build a fresh gain envelope
and source sub-graph, start it at `now` and stop it at `now + release`; no
existing voice is touched or cut off. -/
def playNoteVoice (st : SynthState) (now release freq : Rat) : SynthState :=
  ⟨st.voices ++ [⟨freq, now, now + release⟩]⟩

/-- How many voices are audibly sounding at time `t`: those whose envelope has
started and whose sources have not yet been stopped. -/
def soundingVoices (st : SynthState) (t : Rat) : Nat :=
  (st.voices.filter (fun v => decide (v.startTime ≤ t) && decide (t < v.stopTime))).length

/-! ## Helper lemmas -/

theorem getSlot_setSlot_same (st : LooperState) (s : Slot) (d : SlotData) :
    getSlot (setSlot st s d) s = d := by
  cases s <;> rfl

theorem getSlot_setSlot_other (st : LooperState) (s s' : Slot) (d : SlotData)
    (h : s' ≠ s) : getSlot (setSlot st s d) s' = getSlot st s' := by
  cases s <;> cases s' <;> first | rfl | exact (h rfl).elim

/-- Replaying one event with `skipRecording = true` fires the event's trigger
and leaves the looper state untouched. -/
theorem playLoopStep_skip (now : Rat) (acc : List (Rat × Trigger) × LooperState)
    (e : LoopEvent) :
    playLoopStep now acc e = (acc.1 ++ [(eventTime e, eventTrigger e)], acc.2) := by
  cases e <;>
    simp [playLoopStep, replayEventRun, playDrum, playNote, eventTime, eventTrigger]

theorem playLoopRun_foldl (now : Rat) (l : List LoopEvent) :
    ∀ (acc : List (Rat × Trigger)) (st0 : LooperState),
      l.foldl (playLoopStep now) (acc, st0)
        = (acc ++ l.map (fun e => (eventTime e, eventTrigger e)), st0) := by
  induction l with
  | nil => intro acc st0; simp
  | cons e rest ih =>
    intro acc st0
    rw [List.foldl_cons, playLoopStep_skip, ih]
    simp

/-- Replaying a slot schedules exactly the logged triggers at their recorded
offsets and leaves the whole looper state unchanged. -/
theorem playLoopRun_spec (st : LooperState) (s : Slot) (now : Rat) :
    playLoopRun st s now
      = ((getSlot st s).loop.map (fun e => (eventTime e, eventTrigger e)), st) := by
  unfold playLoopRun
  simpa using playLoopRun_foldl now (getSlot st s).loop [] st

/-! ## C1: the sequencer tick -/

/-- C1: on every clock tick while the sequencer is playing, a drum trigger
fires for track `t` exactly when the track's boolean at the current step
index is true, the step pointer then advances by exactly 1 modulo 16, and the
8x16 boolean grid is unchanged by the tick. -/
theorem sequencer_tick_spec (st : SeqState) (_hplay : st.isPlaying = true) :
    (∀ t, t ∈ (sequencerTick st).2 ↔
      t < 8 ∧ (st.steps.getD t []).getD st.currentStep false = true) ∧
    (sequencerTick st).1.currentStep = (st.currentStep + 1) % 16 ∧
    (sequencerTick st).1.steps = st.steps := by
  refine ⟨fun t => ?_, rfl, rfl⟩
  simp [sequencerTick, List.mem_filter, List.mem_range]

/-- A playing sequencer state holding the demo pattern, step pointer at 4. -/
def demoPlayingState : SeqState where
  steps := loadDemoGrid
  currentStep := 4
  isPlaying := true
  intervalMs := 125
  history := []
  historyIndex := 0

theorem sequencer_tick_spec_witness :
    demoPlayingState.isPlaying = true ∧
    ((∀ t, t ∈ (sequencerTick demoPlayingState).2 ↔
        t < 8 ∧ (demoPlayingState.steps.getD t []).getD demoPlayingState.currentStep false = true) ∧
      (sequencerTick demoPlayingState).1.currentStep = (demoPlayingState.currentStep + 1) % 16 ∧
      (sequencerTick demoPlayingState).1.steps = demoPlayingState.steps) :=
  ⟨rfl, sequencer_tick_spec _ rfl⟩

/-! ## C4: initSystem builds the graph once -/

/-- C4: the first call to `initSystem` builds the fixed effects topology;
every subsequent call leaves the node graph (and hence all mix-control
values) unchanged, and `initSystem` is idempotent. -/
theorem initSystem_once_spec (st : AudioState) :
    (st.graph = none →
      initSystem st = { graph := some buildGraph, suspended := false, isActive := true }) ∧
    (∀ g, st.graph = some g → (initSystem st).graph = some g) ∧
    initSystem (initSystem st) = initSystem st := by
  refine ⟨fun h => ?_, fun g h => ?_, ?_⟩
  · simp [initSystem, h]
  · simp only [initSystem, h]
    by_cases hs : st.suspended <;> simp [hs, h]
  · rcases hg : st.graph with _ | g
    · simp [initSystem, hg]
    · by_cases hs : st.suspended
      · have h1 : initSystem st = { st with suspended := false, isActive := true } := by
          simp [initSystem, hg, hs]
        rw [h1]
        simp [initSystem, hg]
      · have h1 : initSystem st = st := by
          simp [initSystem, hg, hs]
        rw [h1]
        exact h1

theorem initSystem_once_spec_witness :
    initSystem { graph := none, suspended := true, isActive := false }
      = { graph := some buildGraph, suspended := false, isActive := true } :=
  (initSystem_once_spec _).1 rfl

/-! ## C5: dwell position-to-parameter mapping -/

/-- C5: for a cursor position with both coordinates in [0, 1], one pass of
`updateSpatial` targets pan `(x - 0.5) * 2` (in [-1, 1]), lowpass cutoff
`200 + (1 - y) * 15800` Hz (in [200, 16000]), reverb gain `0.1 + 0.8 * y`,
and delay gain `0.7 * y`, and every update is a smoothing
(`setTargetAtTime` with a positive time constant), not a jump. -/
theorem dwell_mapping_spec (x y : Rat) (hx0 : 0 ≤ x) (hx1 : x ≤ 1)
    (hy0 : 0 ≤ y) (hy1 : y ≤ 1) :
    (updateSpatial x y).map ParamUpdate.target
      = [(x - 1/2) * 2, 200 + (1 - y) * 15800, 1/10 + y * (8/10), y * (7/10), y * (3/5)] ∧
    (-1 ≤ (x - 1/2) * 2 ∧ (x - 1/2) * 2 ≤ 1) ∧
    (200 ≤ 200 + (1 - y) * 15800 ∧ 200 + (1 - y) * 15800 ≤ 16000) ∧
    (∀ u ∈ updateSpatial x y, 0 < u.timeConstant) := by
  refine ⟨rfl, ⟨by linarith, by linarith⟩, ⟨?_, ?_⟩, ?_⟩
  · nlinarith
  · nlinarith
  · intro u hu
    simp only [updateSpatial, List.mem_cons, List.not_mem_nil, or_false] at hu
    rcases hu with rfl | rfl | rfl | rfl | rfl <;> norm_num

theorem dwell_mapping_spec_witness :
    (0 ≤ (1/4 : Rat) ∧ (1/4 : Rat) ≤ 1 ∧ 0 ≤ (3/4 : Rat) ∧ (3/4 : Rat) ≤ 1) ∧
    ((updateSpatial (1/4) (3/4)).map ParamUpdate.target
        = [((1:Rat)/4 - 1/2) * 2, 200 + (1 - 3/4) * 15800, 1/10 + (3/4) * (8/10),
           (3/4) * (7/10), (3/4) * (3/5)] ∧
      (-1 ≤ ((1:Rat)/4 - 1/2) * 2 ∧ ((1:Rat)/4 - 1/2) * 2 ≤ 1) ∧
      (200 ≤ 200 + ((1:Rat) - 3/4) * 15800 ∧ 200 + ((1:Rat) - 3/4) * 15800 ≤ 16000) ∧
      (∀ u ∈ updateSpatial (1/4) (3/4), 0 < u.timeConstant)) :=
  ⟨by norm_num,
   dwell_mapping_spec (1/4) (3/4) (by norm_num) (by norm_num) (by norm_num) (by norm_num)⟩

/-! ## C6: the clock interval -/

/-- C6: starting the sequencer at tempo `t` installs a clock whose fixed
interval is `(60 / t) * 1000 / 4` milliseconds (four steps per beat), and a
tick never changes that interval; only stopping and restarting can. -/
theorem sequencer_interval_spec (sq : SeqState) (lp : LooperState) (tempo now : Rat)
    (h : sq.isPlaying = false) :
    (toggleSequencer false tempo now (sq, lp)).1.intervalMs = 60 / tempo * 1000 / 4 ∧
    (∀ st : SeqState, (sequencerTick st).1.intervalMs = st.intervalMs) := by
  constructor
  · simp [toggleSequencer, h, sequencerIntervalMs]
  · intro st; rfl

/-- The idle sequencer state right after page load. -/
def idleSeqState : SeqState where
  steps := emptyGrid
  currentStep := 0
  isPlaying := false
  intervalMs := 0
  history := [emptyGrid]
  historyIndex := 0

/-- The looper state right after page load: four empty slots, slot A active,
not recording. -/
def freshLooper : LooperState where
  slotA := emptySlot
  slotB := emptySlot
  slotC := emptySlot
  slotD := emptySlot
  activeSlot := .A
  isRecording := false
  isOverdub := false
  recordingStart := 0

theorem sequencer_interval_spec_witness :
    idleSeqState.isPlaying = false ∧
    ((toggleSequencer false 120 0 (idleSeqState, freshLooper)).1.intervalMs
        = 60 / 120 * 1000 / 4 ∧
      (∀ st : SeqState, (sequencerTick st).1.intervalMs = st.intervalMs)) :=
  ⟨rfl, sequencer_interval_spec _ _ 120 0 rfl⟩

/-! ## C7: synth voice overlap -/

/-- C7 counterexample: two keyboard triggers 0.1 s apart with the default
0.3 s release produce a state in which two synth voices are sounding at the
same moment (t = 0.15 s), refuting "at most one synth-keyboard note is
sounding at every moment". -/
theorem synth_monophony_counterexample :
    soundingVoices
      (playNoteVoice (playNoteVoice ⟨[]⟩ 0 (3/10) (26163/100)) (1/10) (3/10) (32963/100))
      (3/20) = 2 := by
  norm_num [soundingVoices, playNoteVoice, List.filter]

/-- C7 (amended): each synth trigger is one-shot: `playNote` creates exactly
one new voice, stopping `release` seconds after its start, and leaves every
previously started voice untouched (no cutoff), so voices triggered within a
release window overlap rather than being limited to one sounding note. -/
theorem synth_oneshot_spec (st : SynthState) (now release freq : Rat) :
    (playNoteVoice st now release freq).voices
      = st.voices ++ [⟨freq, now, now + release⟩] := rfl

/-! ## C2: the looper event log and replay -/

/-- C2: while recording or overdub is active, a non-skipped drum trigger or
synth-note trigger appends exactly one timestamped descriptor (time =
current audio-clock time minus the recording start) to the active slot's
event log and no other slot's; replaying a slot re-fires each logged event
(its drum sound or synth frequency) at its recorded time offset and appends
nothing to any slot's event log. -/
theorem looper_log_replay_spec (st : LooperState) (sound wave : String) (freq now : Rat)
    (hrec : st.isRecording = true ∨ st.isOverdub = true) :
    (playDrum st sound false now).1 = Trigger.drum sound ∧
    (getSlot (playDrum st sound false now).2 st.activeSlot).loop
      = (getSlot st st.activeSlot).loop ++ [LoopEvent.drum sound (now - st.recordingStart)] ∧
    (∀ s, s ≠ st.activeSlot → getSlot (playDrum st sound false now).2 s = getSlot st s) ∧
    (playNote st freq wave false now).1 = Trigger.synthNote freq ∧
    (getSlot (playNote st freq wave false now).2 st.activeSlot).loop
      = (getSlot st st.activeSlot).loop ++ [LoopEvent.synth freq wave (now - st.recordingStart)] ∧
    (∀ s, s ≠ st.activeSlot → getSlot (playNote st freq wave false now).2 s = getSlot st s) ∧
    (∀ s, playLoopRun st s now
      = ((getSlot st s).loop.map (fun e => (eventTime e, eventTrigger e)), st)) := by
  have hb : (st.isRecording || st.isOverdub) = true := by
    rcases hrec with h | h <;> simp [h]
  refine ⟨rfl, ?_, ?_, rfl, ?_, ?_, fun s => playLoopRun_spec st s now⟩
  · simp [playDrum, hb, getSlot_setSlot_same]
  · intro s hs
    simp [playDrum, hb, getSlot_setSlot_other _ _ _ _ hs]
  · simp [playNote, hb, getSlot_setSlot_same]
  · intro s hs
    simp [playNote, hb, getSlot_setSlot_other _ _ _ _ hs]

theorem looper_log_replay_spec_witness :
    ({ freshLooper with isRecording := true } : LooperState).isRecording = true ∧
    ((playDrum { freshLooper with isRecording := true } "kick" false 2).1
        = Trigger.drum "kick" ∧
      (getSlot (playDrum { freshLooper with isRecording := true } "kick" false 2).2
          ({ freshLooper with isRecording := true } : LooperState).activeSlot).loop
        = (getSlot { freshLooper with isRecording := true }
            ({ freshLooper with isRecording := true } : LooperState).activeSlot).loop
          ++ [LoopEvent.drum "kick"
                (2 - ({ freshLooper with isRecording := true } : LooperState).recordingStart)] ∧
      (∀ s, s ≠ ({ freshLooper with isRecording := true } : LooperState).activeSlot →
          getSlot (playDrum { freshLooper with isRecording := true } "kick" false 2).2 s
            = getSlot { freshLooper with isRecording := true } s) ∧
      (playNote { freshLooper with isRecording := true } (44000/100) "sine" false 2).1
        = Trigger.synthNote (44000/100) ∧
      (getSlot (playNote { freshLooper with isRecording := true } (44000/100) "sine" false 2).2
          ({ freshLooper with isRecording := true } : LooperState).activeSlot).loop
        = (getSlot { freshLooper with isRecording := true }
            ({ freshLooper with isRecording := true } : LooperState).activeSlot).loop
          ++ [LoopEvent.synth (44000/100) "sine"
                (2 - ({ freshLooper with isRecording := true } : LooperState).recordingStart)] ∧
      (∀ s, s ≠ ({ freshLooper with isRecording := true } : LooperState).activeSlot →
          getSlot (playNote { freshLooper with isRecording := true } (44000/100) "sine" false 2).2 s
            = getSlot { freshLooper with isRecording := true } s) ∧
      (∀ s, playLoopRun { freshLooper with isRecording := true } s 2
        = ((getSlot { freshLooper with isRecording := true } s).loop.map
            (fun e => (eventTime e, eventTrigger e)),
           { freshLooper with isRecording := true }))) :=
  ⟨rfl, looper_log_replay_spec _ "kick" "sine" (44000/100) 2 (Or.inl rfl)⟩

/-! ## C3: the MK1 facade triggers the same primitives -/

/-- C3: the MK1 automation facade delegates to the same primitives as the
direct controls: `MK1.drums.hit(p)` for p in 1..8 fires the `playDrum`
trigger of the p-th pad in the fixed order kick, snare, hihat, clap, tom1,
perc, cymbal, rim; `MK1.synth.play(note)` fires the `playNote` trigger at
that note's frequency; and `MK1.sequencer.start` / `MK1.sequencer.stop`
drive exactly the clock transitions of the transport's `toggleSequencer` /
`stopSequencer`. -/
theorem mk1_facade_spec (sq : SeqState) (lp : LooperState) (tempo now : Rat)
    (note : String) (f : Rat)
    (hn : noteFrequencies.lookup note = some f) (hp : sq.isPlaying = false) :
    (MK1_drums_hit 1 = some (.drum "kick") ∧ MK1_drums_hit 2 = some (.drum "snare") ∧
     MK1_drums_hit 3 = some (.drum "hihat") ∧ MK1_drums_hit 4 = some (.drum "clap") ∧
     MK1_drums_hit 5 = some (.drum "tom1") ∧ MK1_drums_hit 6 = some (.drum "perc") ∧
     MK1_drums_hit 7 = some (.drum "cymbal") ∧ MK1_drums_hit 8 = some (.drum "rim")) ∧
    (∀ p : Rat, isValidPad p = true →
      MK1_drums_hit p = some ((playDrum lp (drumMap.getD (ratIndex p) "") true now).1)) ∧
    (∀ rel w, ∀ dur : Option Rat, (MK1_synth_play rel note dur).map Prod.fst
        = some ((playNote lp f w true now).1)) ∧
    (MK1_sequencer_start tempo now (sq, lp)).1 = (toggleSequencer false tempo now (sq, lp)).1 ∧
    (∀ sq2 lp2, sq2.isPlaying = true →
        MK1_sequencer_stop (sq2, lp2) = stopSequencer true (sq2, lp2)) := by
  refine ⟨?_, ?_, ?_, ?_, ?_⟩
  · refine ⟨?_, ?_, ?_, ?_, ?_, ?_, ?_, ?_⟩ <;> rfl
  · intro p hv
    simp [MK1_drums_hit, hv, playDrum]
  · intro rel w dur
    simp [MK1_synth_play, hn, playNote]
  · simp [MK1_sequencer_start, toggleSequencer, hp]
  · intro sq2 lp2 h2
    simp [MK1_sequencer_stop, h2]

theorem mk1_facade_spec_witness :
    noteFrequencies.lookup "C2" = some (6541/100) ∧ idleSeqState.isPlaying = false ∧
    ((MK1_drums_hit 1 = some (.drum "kick") ∧ MK1_drums_hit 2 = some (.drum "snare") ∧
      MK1_drums_hit 3 = some (.drum "hihat") ∧ MK1_drums_hit 4 = some (.drum "clap") ∧
      MK1_drums_hit 5 = some (.drum "tom1") ∧ MK1_drums_hit 6 = some (.drum "perc") ∧
      MK1_drums_hit 7 = some (.drum "cymbal") ∧ MK1_drums_hit 8 = some (.drum "rim")) ∧
     (∀ p : Rat, isValidPad p = true →
       MK1_drums_hit p = some ((playDrum freshLooper (drumMap.getD (ratIndex p) "") true 0).1)) ∧
     (∀ rel w, ∀ dur : Option Rat, (MK1_synth_play rel "C2" dur).map Prod.fst
         = some ((playNote freshLooper (6541/100) w true 0).1)) ∧
     (MK1_sequencer_start 120 0 (idleSeqState, freshLooper)).1
         = (toggleSequencer false 120 0 (idleSeqState, freshLooper)).1 ∧
     (∀ sq2 lp2, sq2.isPlaying = true →
         MK1_sequencer_stop (sq2, lp2) = stopSequencer true (sq2, lp2))) :=
  ⟨rfl, rfl, mk1_facade_spec idleSeqState freshLooper 120 0 "C2" (6541/100) rfl rfl⟩

/-! ## C8: invalid facade arguments are no-ops -/

/-- C8: every MK1 facade operation given an invalid argument is a no-op:
`drums.hit` fires nothing for a pad that is not an integer in 1..8;
`sequencer.setStep`/`clearTrack` leave the state unchanged for an invalid
track or step; every slot-taking looper operation leaves the state unchanged
for a slot name that does not normalize to A-D; and under the same
conditions `sequencer.getStep` returns false and `looper.getSlotStatus`
returns null. -/
theorem mk1_invalid_args_spec (sq : SeqState) (lp : LooperState) (pad track step : Rat)
    (slot : String) (now : Rat) (active : Bool)
    (hpad : isValidPad pad = false)
    (hts : isValidTrack track = false ∨ isValidStep step = false)
    (hslot : normalizeSlot slot = none) :
    MK1_drums_hit pad = none ∧
    MK1_sequencer_setStep sq track step active = sq ∧
    MK1_sequencer_getStep sq track step = false ∧
    (isValidTrack track = false → MK1_sequencer_clearTrack sq track = sq) ∧
    MK1_looper_record lp slot now = lp ∧
    MK1_looper_play lp slot now = (lp, []) ∧
    MK1_looper_stop lp slot = lp ∧
    MK1_looper_isPlaying lp slot = false ∧
    MK1_looper_addLayer lp slot now = lp ∧
    MK1_looper_clear lp slot = lp ∧
    MK1_looper_getSlotStatus lp slot = none := by
  have hts' : (isValidTrack track && isValidStep step) = false := by
    rcases hts with h | h <;> simp [h]
  exact ⟨by simp [MK1_drums_hit, hpad], by simp [MK1_sequencer_setStep, hts'],
    by simp [MK1_sequencer_getStep, hts'], fun h => by simp [MK1_sequencer_clearTrack, h],
    by simp [MK1_looper_record, hslot], by simp [MK1_looper_play, hslot],
    by simp [MK1_looper_stop, hslot], by simp [MK1_looper_isPlaying, hslot],
    by simp [MK1_looper_addLayer, hslot], by simp [MK1_looper_clear, hslot],
    by simp [MK1_looper_getSlotStatus, hslot]⟩

theorem mk1_invalid_args_spec_witness :
    isValidPad 0 = false ∧ isValidTrack 9 = false ∧ normalizeSlot "E" = none ∧
    (MK1_drums_hit 0 = none ∧
     MK1_sequencer_setStep idleSeqState 9 1 true = idleSeqState ∧
     MK1_sequencer_getStep idleSeqState 9 1 = false ∧
     (isValidTrack 9 = false → MK1_sequencer_clearTrack idleSeqState 9 = idleSeqState) ∧
     MK1_looper_record freshLooper "E" 0 = freshLooper ∧
     MK1_looper_play freshLooper "E" 0 = (freshLooper, []) ∧
     MK1_looper_stop freshLooper "E" = freshLooper ∧
     MK1_looper_isPlaying freshLooper "E" = false ∧
     MK1_looper_addLayer freshLooper "E" 0 = freshLooper ∧
     MK1_looper_clear freshLooper "E" = freshLooper ∧
     MK1_looper_getSlotStatus freshLooper "E" = none) := by
  have h1 : isValidPad 0 = false := by norm_num [isValidPad]
  have h2 : isValidTrack 9 = false := by norm_num [isValidTrack]
  have h3 : normalizeSlot "E" = none := by decide
  exact ⟨h1, h2, h3, mk1_invalid_args_spec idleSeqState freshLooper 0 9 1 "E" 0 true
    h1 (Or.inl h2) h3⟩

/-! ## C9: sequencer structural invariants -/

/-- A well-formed grid: exactly 8 tracks of exactly 16 booleans. -/
def WFgrid (g : Grid) : Prop := g.length = 8 ∧ ∀ tr ∈ g, tr.length = 16

/-- The sequencer invariant: the live grid and every history snapshot are
well-formed 8x16 grids, the step pointer is in 0..15, and the history index
is in range. -/
def SeqInv (st : SeqState) : Prop :=
  WFgrid st.steps ∧ (∀ g ∈ st.history, WFgrid g) ∧ st.currentStep < 16 ∧
    0 ≤ st.historyIndex ∧ st.historyIndex < (st.history.length : Int)

instance : DecidablePred WFgrid := fun g => by
  unfold WFgrid; infer_instance

instance : DecidablePred SeqInv := fun st => by
  unfold SeqInv; infer_instance

theorem wfgrid_empty : WFgrid emptyGrid := by decide

theorem wfgrid_demo : WFgrid loadDemoGrid := by decide

theorem getD_mem_of_lt {α} (l : List α) (n : Nat) (d : α) (h : n < l.length) :
    l.getD n d ∈ l := by
  have he : l.getD n d = l[n] := by
    simp [List.getD_eq_getElem?_getD, List.getElem?_eq_getElem h]
  rw [he]
  exact List.getElem_mem h

theorem wfgrid_set (g : Grid) (t : Nat) (tr : List Bool) (h : WFgrid g)
    (htr : tr.length = 16) : WFgrid (g.set t tr) := by
  refine ⟨by simpa using h.1, fun x hx => ?_⟩
  rcases List.mem_or_eq_of_mem_set hx with hx' | rfl
  · exact h.2 x hx'
  · exact htr

theorem wfgrid_setCell (g : Grid) (t i : Nat) (b : Bool) (h : WFgrid g) :
    WFgrid (setCell g t i b) := by
  unfold setCell
  by_cases ht : t < g.length
  · refine wfgrid_set g t _ h ?_
    have hm : g.getD t [] ∈ g := getD_mem_of_lt g t [] ht
    simpa using h.2 _ hm
  · rw [List.set_eq_of_length_le (by omega)]
    exact h

/-- `saveSequencerState` preserves the invariant and changes neither the live
grid nor the step pointer. -/
theorem seqInv_save (st : SeqState) (h : SeqInv st) :
    SeqInv (saveSequencerState st) ∧ (saveSequencerState st).steps = st.steps ∧
    (saveSequencerState st).currentStep = st.currentStep ∧
    (saveSequencerState st).isPlaying = st.isPlaying := by
  obtain ⟨hw, hh, hc, hi0, hil⟩ := h
  have hmemT : ∀ g ∈ st.history.take (st.historyIndex + 1).toNat ++ [st.steps], WFgrid g := by
    intro g hg
    rcases List.mem_append.mp hg with hg' | hg'
    · exact hh g (List.mem_of_mem_take hg')
    · rw [List.mem_singleton.mp hg']
      exact hw
  have hmemA : ∀ g ∈ st.history ++ [st.steps], WFgrid g := by
    intro g hg
    rcases List.mem_append.mp hg with hg' | hg'
    · exact hh g hg'
    · rw [List.mem_singleton.mp hg']
      exact hw
  simp only [saveSequencerState]
  by_cases hcond : st.historyIndex < (st.history.length : Int) - 1
  · simp only [if_pos hcond]
    by_cases hbig :
        (st.history.take (st.historyIndex + 1).toNat ++ [st.steps]).length > MAX_HISTORY
    · simp only [if_pos hbig]
      have hlen2 : st.historyIndex <
          (((st.history.take (st.historyIndex + 1).toNat ++ [st.steps]).drop 1).length : Int) := by
        simp only [List.length_drop, List.length_append, List.length_singleton, List.length_take]
        omega
      exact ⟨⟨hw, fun g hg => hmemT g (List.mem_of_mem_drop hg), hc, hi0, hlen2⟩,
        by trivial, by trivial, by trivial⟩
    · simp only [if_neg hbig]
      have hlen2 : st.historyIndex + 1 <
          ((st.history.take (st.historyIndex + 1).toNat ++ [st.steps]).length : Int) := by
        simp only [List.length_append, List.length_singleton, List.length_take]
        omega
      exact ⟨⟨hw, hmemT, hc, (by omega : (0:Int) ≤ st.historyIndex + 1), hlen2⟩,
        by trivial, by trivial, by trivial⟩
  · simp only [if_neg hcond]
    by_cases hbig : (st.history ++ [st.steps]).length > MAX_HISTORY
    · simp only [if_pos hbig]
      have hlen2 : st.historyIndex <
          (((st.history ++ [st.steps]).drop 1).length : Int) := by
        simp only [List.length_drop, List.length_append, List.length_singleton]
        omega
      exact ⟨⟨hw, fun g hg => hmemA g (List.mem_of_mem_drop hg), hc, hi0, hlen2⟩,
        by trivial, by trivial, by trivial⟩
    · simp only [if_neg hbig]
      have hlen2 : st.historyIndex + 1 < (((st.history ++ [st.steps])).length : Int) := by
        simp only [List.length_append, List.length_singleton]
        omega
      exact ⟨⟨hw, hmemA, hc, (by omega : (0:Int) ≤ st.historyIndex + 1), hlen2⟩,
        by trivial, by trivial, by trivial⟩

/-- C9: every sequencer operation (toggling a cell, the MK1 setStep,
clearTrack and clearAll, undo, redo, demo load, the clear buttons, and a
clock tick) preserves the 8x16 grid shape and keeps the step pointer in
0..15, and stopping the sequencer resets the step pointer to 0. -/
theorem sequencer_invariant_spec (st : SeqState) (t i : Nat) (track step : Rat) (b : Bool)
    (h : SeqInv st) :
    SeqInv (toggleStepCell st t i) ∧
    SeqInv (MK1_sequencer_setStep st track step b) ∧
    SeqInv (MK1_sequencer_clearTrack st track) ∧
    SeqInv (MK1_sequencer_clearAll st) ∧
    SeqInv (undoSequencer st) ∧
    SeqInv (redoSequencer st) ∧
    SeqInv (loadDemo st) ∧
    SeqInv (clearSeq st) ∧
    SeqInv (clearAllBtnSeq st) ∧
    SeqInv (sequencerTick st).1 ∧
    SeqInv (stopSequencerSeq st) ∧
    (stopSequencerSeq st).currentStep = 0 ∧
    (∀ rec lp, (stopSequencer rec (st, lp)).1.currentStep = 0) := by
  obtain ⟨hw, hh, hc, hi0, hil⟩ := h
  have hmod : (st.currentStep + 1) % 16 < 16 := Nat.mod_lt _ (by omega)
  refine ⟨?_, ?_, ?_, ?_, ?_, ?_, ?_, ?_, ?_, ?_, ?_, rfl, fun rec lp => rfl⟩
  · obtain ⟨⟨hw', hh', hc', hi0', hil'⟩, hsteps, hcur, _⟩ :=
      seqInv_save st ⟨hw, hh, hc, hi0, hil⟩
    exact ⟨wfgrid_setCell _ t i _ hw', hh', hc', hi0', hil'⟩
  · unfold MK1_sequencer_setStep
    split
    · exact ⟨wfgrid_setCell _ _ _ _ hw, hh, hc, hi0, hil⟩
    · exact ⟨hw, hh, hc, hi0, hil⟩
  · unfold MK1_sequencer_clearTrack
    split
    · exact ⟨wfgrid_set _ _ _ hw (by simp), hh, hc, hi0, hil⟩
    · exact ⟨hw, hh, hc, hi0, hil⟩
  · exact ⟨wfgrid_empty, hh, hc, hi0, hil⟩
  · unfold undoSequencer
    split
    · rename_i hpos
      dsimp only [restoreSequencerState]
      exact ⟨hh _ (getD_mem_of_lt _ _ _ (by omega)), hh, hc,
        (by omega : (0:Int) ≤ st.historyIndex - 1),
        (by omega : st.historyIndex - 1 < (st.history.length : Int))⟩
    · exact ⟨hw, hh, hc, hi0, hil⟩
  · unfold redoSequencer
    split
    · rename_i hlt
      dsimp only [restoreSequencerState]
      exact ⟨hh _ (getD_mem_of_lt _ _ _ (by omega)), hh, hc,
        (by omega : (0:Int) ≤ st.historyIndex + 1),
        (by omega : st.historyIndex + 1 < (st.history.length : Int))⟩
    · exact ⟨hw, hh, hc, hi0, hil⟩
  · exact ⟨wfgrid_demo, hh, hc, hi0, hil⟩
  · exact ⟨wfgrid_empty, hh, hc, hi0, hil⟩
  · unfold clearAllBtnSeq
    dsimp only
    split
    · exact ⟨wfgrid_empty, hh, (by omega : (0:Nat) < 16), hi0, hil⟩
    · exact ⟨wfgrid_empty, hh, hc, hi0, hil⟩
  · exact ⟨hw, hh, hmod, hi0, hil⟩
  · exact ⟨hw, hh, (by omega : (0:Nat) < 16), hi0, hil⟩

theorem sequencer_invariant_spec_witness :
    SeqInv idleSeqState ∧
    (SeqInv (toggleStepCell idleSeqState 0 0) ∧
     SeqInv (MK1_sequencer_setStep idleSeqState 1 1 true) ∧
     SeqInv (MK1_sequencer_clearTrack idleSeqState 1) ∧
     SeqInv (MK1_sequencer_clearAll idleSeqState) ∧
     SeqInv (undoSequencer idleSeqState) ∧
     SeqInv (redoSequencer idleSeqState) ∧
     SeqInv (loadDemo idleSeqState) ∧
     SeqInv (clearSeq idleSeqState) ∧
     SeqInv (clearAllBtnSeq idleSeqState) ∧
     SeqInv (sequencerTick idleSeqState).1 ∧
     SeqInv (stopSequencerSeq idleSeqState) ∧
     (stopSequencerSeq idleSeqState).currentStep = 0 ∧
     (∀ rec lp, (stopSequencer rec (idleSeqState, lp)).1.currentStep = 0)) :=
  ⟨by decide, sequencer_invariant_spec idleSeqState 0 0 1 1 true (by decide)⟩

/-! ## C10: the undo/redo history -/

/-- C10 evaluation at the failing input: starting from the post-load state
(history = one empty snapshot, index 0), one grid edit (toggling kick step 1)
followed by undo and then redo leaves the grid EMPTY - the pre-edit
snapshot - even though the post-edit grid has the toggled cell set, because
`saveSequencerState` is called before the mutation and so the post-edit grid
is never in the history; redo cannot restore the post-edit contents. -/
theorem redo_restores_pre_edit :
    (redoSequencer (undoSequencer (toggleStepCell idleSeqState 0 0))).steps
        = idleSeqState.steps ∧
    (toggleStepCell idleSeqState 0 0).steps ≠ idleSeqState.steps := by
  decide

end Playground
